import Mathlib

/-!
Shallow embedding of the snake_bnb service layer
(`src/snake_bnb/src/services/data_service.py` together with the MongoEngine
document models in `src/snake_bnb/src/data/`).

Modelling conventions:
* Naive Python datetimes are modelled as `ℤ` (seconds since an arbitrary
  epoch); `datetime.timedelta(days=d)` therefore contributes `d * 86400`
  seconds, and `timedelta.days` is floor division of the total signed
  seconds by 86400, exactly as Python normalises timedeltas.
* MongoEngine `FloatField`s (`price`, `square_meters`, `length`) are
  modelled as `ℚ`; the claims about them are purely order-theoretic.
* BSON ObjectIds are opaque identifiers, modelled as `Nat`.
* The document store is a `DB` record holding the three collections as
  lists in stored order.  A MongoEngine query `.filter(field__gte=x)` on an
  embedded list field matches a document when SOME embedded element
  satisfies the comparison; separate `.filter` calls may be satisfied by
  different elements.  `.order_by` is modelled two ways: the executable
  pipeline evaluates it as a merge sort by the requested keys (one
  concrete admissible behaviour of the store), while `admissibleResult`
  captures the store's actual ordering contract — some key-consistent
  ordering, unspecified on duplicate keys.  `.save()` writes the whole
  document back by id.
* Python functions that can raise are embedded with an explicit outcome:
  `book_cage` returns the outcome together with the post-state of the
  store (on an exception nothing was saved, so the post-state is the
  input store).
-/

namespace SnakeBnb

abbrev ObjectId := Nat

/- A naive `datetime.datetime` is represented below as a plain `ℤ`
(count of seconds). -/

def secondsPerDay : ℤ := 86400

/-- `datetime.timedelta(days=d)`, as seconds. -/
def timedeltaOfDays (d : ℤ) : ℤ := d * secondsPerDay

/-- A Python `timedelta`, normalised the way Python does: `days` is the
floor of the total seconds over one day, `seconds` the non-negative
remainder. -/
structure Timedelta where
  days : ℤ
  seconds : ℤ
  deriving Repr, DecidableEq

/-- Subtraction of two datetimes, yielding a normalised `Timedelta`. -/
def datetimeSub (a b : ℤ) : Timedelta :=
  { days := (a - b).fdiv secondsPerDay, seconds := (a - b).fmod secondsPerDay }

/-- `data/bookings.py`: the `Booking` embedded document. -/
structure Booking where
  guest_owner_id : Option ObjectId := none
  guest_snake_id : Option ObjectId := none
  booked_date : Option ℤ := none
  check_in_date : ℤ
  check_out_date : ℤ
  review : Option String := none
  rating : ℤ := 0
  deriving Repr, DecidableEq

/-- `Booking.duration_in_days`: `(check_out_date - check_in_date).days`. -/
def Booking.duration_in_days (b : Booking) : ℤ :=
  (datetimeSub b.check_out_date b.check_in_date).days

/-- `data/cages.py`: the `Cage` document. -/
structure Cage where
  id : ObjectId
  registered_date : ℤ := 0
  name : String
  price : ℚ
  square_meters : ℚ
  is_carpeted : Bool := false
  has_toys : Bool := false
  allow_dangerous_snakes : Bool := false
  bookings : List Booking := []
  deriving Repr, DecidableEq

/-- `data/snakes.py`: the `Snake` document. -/
structure Snake where
  id : ObjectId
  registered_date : ℤ := 0
  species : String := ""
  name : String := ""
  length : ℚ
  is_venomous : Bool
  deriving Repr, DecidableEq

/-- `data/owners.py`: the `Owner` document. -/
structure Owner where
  id : ObjectId
  registered_date : ℤ := 0
  name : String := ""
  email : String := ""
  snake_ids : List ObjectId := []
  cage_ids : List ObjectId := []
  deriving Repr, DecidableEq

/-- The document store: the three collections, each in stored order. -/
structure DB where
  owners : List Owner := []
  snakes : List Snake := []
  cages : List Cage := []
  deriving Repr, DecidableEq

/-- `cage.save()`: write the whole cage document back over every stored
document with the same id. -/
def saveCage (db : DB) (cage : Cage) : DB :=
  { db with cages := db.cages.map (fun c => if c.id = cage.id then cage else c) }

/-- The in-memory cage with its embedded booking list replaced. -/
def withBookings (cage : Cage) (bs : List Booking) : Cage :=
  { cage with bookings := bs }

/-- The window predicate used verbatim in both `get_available_cages` and
`book_cage`:
`b.check_in_date <= checkin and b.check_out_date >= checkout and b.guest_snake_id is None`. -/
def windowMatches (checkin checkout : ℤ) (b : Booking) : Bool :=
  decide (b.check_in_date ≤ checkin) && decide (checkout ≤ b.check_out_date)
    && decide (b.guest_snake_id = none)

/-- The key used by `order_by('price', '-square_meters')`: price ascending,
ties broken by square_meters descending. -/
def cageLE (a b : Cage) : Bool :=
  decide (a.price < b.price)
    || (decide (a.price = b.price) && decide (b.square_meters ≤ a.square_meters))

/-- `data_service.get_available_cages` (lines 202-227).  Server-side
filters (size, each embedded-date bound matched by possibly different
bookings, the conditional venomous filter), the stable `order_by`, then
the client-side loop that appends a cage once as soon as one of its
bookings satisfies the full window predicate (`break` on first match). -/
def get_available_cages (db : DB) (checkin checkout : ℤ) (snake : Snake) :
    List Cage :=
  let min_size := snake.length / 4
  let query := db.cages.filter (fun c =>
    decide (min_size ≤ c.square_meters)
    && c.bookings.any (fun b => decide (b.check_in_date ≤ checkin))
    && c.bookings.any (fun b => decide (checkout ≤ b.check_out_date)))
  let query2 := if snake.is_venomous then query.filter (fun c => c.allow_dangerous_snakes)
    else query
  let cages := query2.mergeSort cageLE
  cages.filter (fun c => c.bookings.any (windowMatches checkin checkout))

/-- The stateful view of `get_available_cages`: the function performs no
`.save()`, so the store after the call is the store before it. -/
def get_available_cages_call (db : DB) (checkin checkout : ℤ) (snake : Snake) :
    List Cage × DB :=
  (get_available_cages db checkin checkout snake, db)

/-- The server-side portion of the `get_available_cages` query (the
chained `.filter` calls including the conditional venomous filter),
before `order_by`. -/
def cageQuery (db : DB) (checkin checkout : ℤ) (snake : Snake) : List Cage :=
  let min_size := snake.length / 4
  let query := db.cages.filter (fun c =>
    decide (min_size ≤ c.square_meters)
    && c.bookings.any (fun b => decide (b.check_in_date ≤ checkin))
    && c.bookings.any (fun b => decide (checkout ≤ b.check_out_date)))
  if snake.is_venomous then query.filter (fun c => c.allow_dangerous_snakes) else query

/-- The external store's `order_by` contract, modelled relationally:
MongoDB promises only *some* ordering of the query results consistent
with the requested keys — on duplicate key values the order is
unspecified (the sort is not guaranteed stable).  A list `r` is an
admissible reply of the whole pipeline when it is the client-side filter
of some key-sorted permutation of the server query results. -/
def admissibleResult (db : DB) (checkin checkout : ℤ) (snake : Snake)
    (r : List Cage) : Prop :=
  ∃ sc : List Cage, sc.Perm (cageQuery db checkin checkout snake) ∧
    sc.Pairwise (fun a b => cageLE a b = true) ∧
    r = sc.filter (fun c => c.bookings.any (windowMatches checkin checkout))

/-- Possible failure of `book_cage`.  The source can only ever raise
`attributeErrorNone` (the Python `AttributeError` from using the `None`
left in `booking` when no window matched); `noMatchingAvailability` is the
distinct explicit error the spec demands and the source never produces. -/
inductive BookFailure where
  | attributeErrorNone
  | noMatchingAvailability
  deriving Repr, DecidableEq

/-- The in-place mutation `book_cage` performs on the matched window: set
the guest fields, overwrite the date range with the requested one and
stamp `booked_date` with the current time. -/
def bookedWindow (owner_id snake_id : ObjectId) (checkin checkout now : ℤ)
    (b : Booking) : Booking :=
  { b with
    guest_owner_id := some owner_id
    guest_snake_id := some snake_id
    check_in_date := checkin
    check_out_date := checkout
    booked_date := some now }

/-- The scan-and-mutate loop of `book_cage`: walk the bookings in stored
order, and mutate the first one satisfying the window predicate; `none`
when no window matches. -/
def bookWindows (owner_id snake_id : ObjectId) (checkin checkout now : ℤ) :
    List Booking → Option (List Booking)
  | [] => none
  | b :: bs =>
    if windowMatches checkin checkout b then
      some (bookedWindow owner_id snake_id checkin checkout now b :: bs)
    else
      (bookWindows owner_id snake_id checkin checkout now bs).map (b :: ·)

/-- `data_service.book_cage` (lines 254-270).  `now` is the value of
`datetime.datetime.now()` at the call.  Returns the outcome together with
the post-state of the store: when no window matches, `booking` stays
`None` and the attribute assignment raises before `cage.save()` runs, so
the store is unchanged. -/
def book_cage (db : DB) (account : Owner) (snake : Snake) (cage : Cage)
    (checkin checkout now : ℤ) : Except BookFailure DB × DB :=
  match bookWindows account.id snake.id checkin checkout now cage.bookings with
  | none => (Except.error BookFailure.attributeErrorNone, db)
  | some bs =>
    let cage2 := { cage with bookings := bs }
    let db2 := saveCage db cage2
    (Except.ok db2, db2)

/-- The `Booking` constructed by `add_available_date`: an open window
`[start_date, start_date + days)`. -/
def newWindow (start_date : ℤ) (days : ℤ) : Booking :=
  { check_in_date := start_date, check_out_date := start_date + timedeltaOfDays days }

/-- `data_service.add_available_date` (lines 124-136).  Builds the open
window, re-fetches the cage by id, appends and saves; no overlap or
validity check of any kind.  `none` models the crash when the refetch
finds nothing. -/
def add_available_date (db : DB) (cage : Cage) (start_date : ℤ) (days : ℤ) :
    Option (DB × Cage) :=
  match db.cages.find? (fun c => c.id == cage.id) with
  | none => none
  | some c =>
    let c2 := { c with bookings := c.bookings ++ [newWindow start_date days] }
    some (saveCage db c2, c2)

/-! ### Helper lemmas -/

theorem windowMatches_iff {checkin checkout : ℤ} {b : Booking} :
    windowMatches checkin checkout b = true ↔
      b.check_in_date ≤ checkin ∧ checkout ≤ b.check_out_date ∧
        b.guest_snake_id = none := by
  simp [windowMatches, and_assoc]

/-- Full membership characterisation of `get_available_cages`: the
server-side booking-date filters are subsumed by the client-side check for
a single fully matching window. -/
theorem mem_get_available_cages {db : DB} {checkin checkout : ℤ}
    {snake : Snake} {c : Cage} :
    c ∈ get_available_cages db checkin checkout snake ↔
      c ∈ db.cages ∧ snake.length / 4 ≤ c.square_meters ∧
        (snake.is_venomous = true → c.allow_dangerous_snakes = true) ∧
        ∃ b ∈ c.bookings, b.check_in_date ≤ checkin ∧ checkout ≤ b.check_out_date ∧
          b.guest_snake_id = none := by
  cases hv : snake.is_venomous <;>
    simp only [get_available_cages, hv, if_true, if_false, List.mem_filter,
      List.mem_mergeSort, List.any_eq_true, windowMatches_iff, Bool.and_eq_true,
      decide_eq_true_eq, Bool.false_eq_true, false_implies, true_implies,
      true_and, Bool.true_eq_false] <;>
    constructor
  · rintro ⟨⟨hmem, ⟨hsize, -⟩, -⟩, b, hb, h1, h2, h3⟩
    exact ⟨hmem, hsize, b, hb, h1, h2, h3⟩
  · rintro ⟨hmem, hsize, b, hb, h1, h2, h3⟩
    exact ⟨⟨hmem, ⟨hsize, ⟨b, hb, h1⟩⟩, ⟨b, hb, h2⟩⟩, b, hb, h1, h2, h3⟩
  · rintro ⟨⟨⟨hmem, ⟨hsize, -⟩, -⟩, hallow⟩, b, hb, h1, h2, h3⟩
    exact ⟨hmem, hsize, hallow, b, hb, h1, h2, h3⟩
  · rintro ⟨hmem, hsize, hallow, b, hb, h1, h2, h3⟩
    exact ⟨⟨⟨hmem, ⟨hsize, ⟨b, hb, h1⟩⟩, ⟨b, hb, h2⟩⟩, hallow⟩, b, hb, h1, h2, h3⟩

/-- A window that `book_cage` has consumed can never match again: its
`guest_snake_id` is set. -/
theorem windowMatches_bookedWindow (owner_id snake_id : ObjectId)
    (checkin checkout now ci2 co2 : ℤ) (b : Booking) :
    windowMatches ci2 co2 (bookedWindow owner_id snake_id checkin checkout now b) = false := by
  simp [windowMatches, bookedWindow]

theorem bookWindows_eq_none {owner_id snake_id : ObjectId}
    {checkin checkout now : ℤ} {l : List Booking} :
    bookWindows owner_id snake_id checkin checkout now l = none ↔
      l.any (windowMatches checkin checkout) = false := by
  induction l with
  | nil => simp [bookWindows]
  | cons b bs ih =>
    by_cases hb : windowMatches checkin checkout b = true <;>
      simp [bookWindows, hb, ih]

/-- Successful scan: the booking list splits around the first matching
window, which is mutated in place; everything else is untouched. -/
theorem bookWindows_eq_some {owner_id snake_id : ObjectId}
    {checkin checkout now : ℤ} {l : List Booking}
    (h : l.any (windowMatches checkin checkout) = true) :
    ∃ l1 b l2, l = l1 ++ b :: l2 ∧
      (∀ x ∈ l1, windowMatches checkin checkout x = false) ∧
      windowMatches checkin checkout b = true ∧
      bookWindows owner_id snake_id checkin checkout now l =
        some (l1 ++ bookedWindow owner_id snake_id checkin checkout now b :: l2) := by
  induction l with
  | nil => simp at h
  | cons b bs ih =>
    by_cases hb : windowMatches checkin checkout b = true
    · exact ⟨[], b, bs, rfl, by simp, hb, by simp [bookWindows, hb]⟩
    · have hbf : windowMatches checkin checkout b = false := by simpa using hb
      have h' : bs.any (windowMatches checkin checkout) = true := by
        simpa [hbf] using h
      obtain ⟨l1, b1, l2, hl, hall, hm, hbw⟩ := ih h'
      refine ⟨b :: l1, b1, l2, by simp [hl], ?_, hm, by simp [bookWindows, hbf, hbw]⟩
      intro x hx
      rcases List.mem_cons.mp hx with rfl | hx'
      · exact hbf
      · exact hall x hx'

/-! ### Concrete fixtures used by witnesses and counterexamples -/

def exWindow : Booking := { check_in_date := 0, check_out_date := 9 * secondsPerDay }

def exCage : Cage :=
  { id := 1, name := "cozy", price := 20, square_meters := 5, bookings := [exWindow] }

def exSnake : Snake := { id := 7, length := 4, is_venomous := false }

def exOwner : Owner := { id := 2, name := "alice", email := "a@b.c" }

def exDB : DB := { cages := [exCage] }

/-! ### Claim theorems -/

/-- C1: for every cage `c` and query `(checkin, checkout, snake)`, `c`
appears in the result of `get_available_cages` if and only if `c` is
stored, `c.square_meters ≥ snake.length / 4`, venomous snakes are only
matched with cages allowing dangerous snakes, and `c` has at least one
booking window `b` with `b.check_in_date ≤ checkin`,
`b.check_out_date ≥ checkout` and `b.guest_snake_id` unset. -/
theorem C1_get_available_cages_membership (db : DB) (checkin checkout : ℤ)
    (snake : Snake) (c : Cage) :
    c ∈ get_available_cages db checkin checkout snake ↔
      c ∈ db.cages ∧ snake.length / 4 ≤ c.square_meters ∧
        (snake.is_venomous = true → c.allow_dangerous_snakes = true) ∧
        ∃ b ∈ c.bookings, b.check_in_date ≤ checkin ∧ checkout ≤ b.check_out_date ∧
          b.guest_snake_id = none :=
  mem_get_available_cages

/-- C4: when at least one window matches, `book_cage` splits the stored
booking list around the **first** matching window, mutates exactly that
window in place (guest ids set, dates overwritten to the requested range,
`booked_date` stamped), saves the cage with the surrounding windows
untouched and nothing split out, and the consumed window can no longer
match any availability query. -/
theorem C4_book_cage_books_first_matching_window (db : DB) (account : Owner)
    (snake : Snake) (cage : Cage) (checkin checkout now : ℤ)
    (h : cage.bookings.any (windowMatches checkin checkout) = true) :
    ∃ l1 b l2,
      cage.bookings = l1 ++ b :: l2 ∧
      (∀ x ∈ l1, windowMatches checkin checkout x = false) ∧
      windowMatches checkin checkout b = true ∧
      (bookedWindow account.id snake.id checkin checkout now b).guest_owner_id
        = some account.id ∧
      (bookedWindow account.id snake.id checkin checkout now b).guest_snake_id
        = some snake.id ∧
      (bookedWindow account.id snake.id checkin checkout now b).check_in_date = checkin ∧
      (bookedWindow account.id snake.id checkin checkout now b).check_out_date = checkout ∧
      (bookedWindow account.id snake.id checkin checkout now b).booked_date = some now ∧
      book_cage db account snake cage checkin checkout now =
        (Except.ok (saveCage db (withBookings cage
            (l1 ++ bookedWindow account.id snake.id checkin checkout now b :: l2))),
         saveCage db (withBookings cage
            (l1 ++ bookedWindow account.id snake.id checkin checkout now b :: l2))) ∧
      ∀ ci2 co2, windowMatches ci2 co2
          (bookedWindow account.id snake.id checkin checkout now b) = false := by
  obtain ⟨l1, b, l2, hl, hall, hm, hbw⟩ :=
    @bookWindows_eq_some account.id snake.id checkin checkout now cage.bookings h
  exact ⟨l1, b, l2, hl, hall, hm, rfl, rfl, rfl, rfl, rfl,
    by simp [book_cage, withBookings, hbw],
    fun ci2 co2 => windowMatches_bookedWindow account.id snake.id checkin checkout now ci2 co2 b⟩

/-- Witness for C4 on the spec scenario: one open window `[day 0, day 9]`,
request `[day 1, day 4]`. -/
theorem C4_witness :
    exCage.bookings.any (windowMatches (1 * secondsPerDay) (4 * secondsPerDay)) = true ∧
    ∃ l1 b l2,
      exCage.bookings = l1 ++ b :: l2 ∧
      (∀ x ∈ l1, windowMatches (1 * secondsPerDay) (4 * secondsPerDay) x = false) ∧
      windowMatches (1 * secondsPerDay) (4 * secondsPerDay) b = true ∧
      (bookedWindow exOwner.id exSnake.id (1 * secondsPerDay) (4 * secondsPerDay) 100 b).guest_owner_id
        = some exOwner.id ∧
      (bookedWindow exOwner.id exSnake.id (1 * secondsPerDay) (4 * secondsPerDay) 100 b).guest_snake_id
        = some exSnake.id ∧
      (bookedWindow exOwner.id exSnake.id (1 * secondsPerDay) (4 * secondsPerDay) 100 b).check_in_date
        = 1 * secondsPerDay ∧
      (bookedWindow exOwner.id exSnake.id (1 * secondsPerDay) (4 * secondsPerDay) 100 b).check_out_date
        = 4 * secondsPerDay ∧
      (bookedWindow exOwner.id exSnake.id (1 * secondsPerDay) (4 * secondsPerDay) 100 b).booked_date
        = some 100 ∧
      book_cage exDB exOwner exSnake exCage (1 * secondsPerDay) (4 * secondsPerDay) 100 =
        (Except.ok (saveCage exDB (withBookings exCage
            (l1 ++ bookedWindow exOwner.id exSnake.id (1 * secondsPerDay) (4 * secondsPerDay) 100 b :: l2))),
         saveCage exDB (withBookings exCage
            (l1 ++ bookedWindow exOwner.id exSnake.id (1 * secondsPerDay) (4 * secondsPerDay) 100 b :: l2))) ∧
      ∀ ci2 co2, windowMatches ci2 co2
          (bookedWindow exOwner.id exSnake.id (1 * secondsPerDay) (4 * secondsPerDay) 100 b) = false :=
  ⟨by decide,
    C4_book_cage_books_first_matching_window exDB exOwner exSnake exCage
      (1 * secondsPerDay) (4 * secondsPerDay) 100 (by decide)⟩

/-- C9: `book_cage` re-checks neither the size constraint nor the
venomous constraint: it succeeds and books the window whenever some open
window covers the range, even when the cage is too small for the snake or
the snake is venomous and the cage forbids dangerous snakes. -/
theorem C9_book_cage_ignores_size_and_venom (db : DB) (account : Owner)
    (snake : Snake) (cage : Cage) (checkin checkout now : ℤ)
    (hwin : cage.bookings.any (windowMatches checkin checkout) = true)
    (_hbad : cage.square_meters < snake.length / 4 ∨
      (snake.is_venomous = true ∧ cage.allow_dangerous_snakes = false)) :
    ∃ bs, book_cage db account snake cage checkin checkout now =
        (Except.ok (saveCage db (withBookings cage bs)),
         saveCage db (withBookings cage bs)) ∧
      ∃ b ∈ bs, b.guest_owner_id = some account.id ∧ b.guest_snake_id = some snake.id ∧
        b.check_in_date = checkin ∧ b.check_out_date = checkout := by
  obtain ⟨l1, b, l2, hl, hall, hm, hbw⟩ :=
    @bookWindows_eq_some account.id snake.id checkin checkout now cage.bookings hwin
  refine ⟨l1 ++ bookedWindow account.id snake.id checkin checkout now b :: l2,
    by simp [book_cage, withBookings, hbw], ?_⟩
  exact ⟨bookedWindow account.id snake.id checkin checkout now b,
    by simp, rfl, rfl, rfl, rfl⟩

def exTinyCage : Cage :=
  { id := 3, name := "tiny", price := 1, square_meters := 1, bookings := [exWindow] }

def exBigSnake : Snake := { id := 8, length := 100, is_venomous := false }

def exTinyDB : DB := { cages := [exTinyCage] }

/-- Witness for C9: a 1 m² cage is booked for a 100-unit-long snake
(minimum size 25) because `book_cage` never looks at the size. -/
theorem C9_witness :
    (exTinyCage.bookings.any (windowMatches (1 * secondsPerDay) (4 * secondsPerDay)) = true ∧
      (exTinyCage.square_meters < exBigSnake.length / 4 ∨
        (exBigSnake.is_venomous = true ∧ exTinyCage.allow_dangerous_snakes = false))) ∧
    ∃ bs, book_cage exTinyDB exOwner exBigSnake exTinyCage
          (1 * secondsPerDay) (4 * secondsPerDay) 100 =
        (Except.ok (saveCage exTinyDB (withBookings exTinyCage bs)),
         saveCage exTinyDB (withBookings exTinyCage bs)) ∧
      ∃ b ∈ bs, b.guest_owner_id = some exOwner.id ∧ b.guest_snake_id = some exBigSnake.id ∧
        b.check_in_date = 1 * secondsPerDay ∧ b.check_out_date = 4 * secondsPerDay :=
  ⟨⟨by decide, Or.inl (by norm_num [exTinyCage, exBigSnake])⟩,
    C9_book_cage_ignores_size_and_venom exTinyDB exOwner exBigSnake exTinyCage
      (1 * secondsPerDay) (4 * secondsPerDay) 100 (by decide)
      (Or.inl (by norm_num [exTinyCage, exBigSnake]))⟩

/-- C2 (the code, not the claim): when no stored window of the cage
matches the request, `book_cage` leaves every window and the whole store
unchanged, but the failure it produces is the `None`-dereference crash,
which is a distinct outcome from the explicit "no matching availability"
error the spec requires. -/
theorem C2_book_cage_no_match_crashes (db : DB) (account : Owner)
    (snake : Snake) (cage : Cage) (checkin checkout now : ℤ)
    (h : ∀ b ∈ cage.bookings, ¬(b.check_in_date ≤ checkin ∧ checkout ≤ b.check_out_date ∧
        b.guest_snake_id = none)) :
    book_cage db account snake cage checkin checkout now =
      (Except.error BookFailure.attributeErrorNone, db) ∧
    BookFailure.attributeErrorNone ≠ BookFailure.noMatchingAvailability := by
  have hany : cage.bookings.any (windowMatches checkin checkout) = false := by
    rw [List.any_eq_false]
    intro b hb
    simp only [Bool.eq_false_iff, Ne, windowMatches_iff]
    exact h b hb
  have hnone : bookWindows account.id snake.id checkin checkout now cage.bookings = none :=
    bookWindows_eq_none.mpr hany
  exact ⟨by simp [book_cage, hnone], by decide⟩

def exBookedWindow : Booking :=
  { guest_owner_id := some 9
    guest_snake_id := some 10
    booked_date := some 50
    check_in_date := 0
    check_out_date := 9 * secondsPerDay }

def exFullCage : Cage :=
  { id := 4
    name := "full"
    price := 2
    square_meters := 5
    bookings := [exBookedWindow, exWindow] }

def exFullDB : DB := { cages := [exFullCage] }

/-- Witness for C2: a cage whose only windows are an already-booked one
and one that does not contain the requested range. -/
theorem C2_witness :
    (∀ b ∈ exFullCage.bookings,
      ¬(b.check_in_date ≤ 10 * secondsPerDay ∧ 12 * secondsPerDay ≤ b.check_out_date ∧
        b.guest_snake_id = none)) ∧
    book_cage exFullDB exOwner exSnake exFullCage
        (10 * secondsPerDay) (12 * secondsPerDay) 100 =
      (Except.error BookFailure.attributeErrorNone, exFullDB) ∧
    BookFailure.attributeErrorNone ≠ BookFailure.noMatchingAvailability :=
  ⟨by decide,
    C2_book_cage_no_match_crashes exFullDB exOwner exSnake exFullCage
      (10 * secondsPerDay) (12 * secondsPerDay) 100 (by decide)⟩

def exOwner2 : Owner := { id := 11, name := "bob", email := "b@c.d" }

def exSnake2 : Snake := { id := 12, length := 4, is_venomous := false }

/-- The single window of `exCage` after the first successful reservation. -/
def exCageBooked : Cage :=
  withBookings exCage
    [bookedWindow exOwner.id exSnake.id (1 * secondsPerDay) (4 * secondsPerDay) 100 exWindow]

def exDBBooked : DB := saveCage exDB exCageBooked

/-- Counterexample to C3 as stated: on a cage whose one open window was
narrowed and booked by a first `book_cage` call, the second call for the
same range does not fail with a distinct "no availability" error — it
produces the `None`-dereference crash. -/
theorem C3_counterexample :
    book_cage exDB exOwner exSnake exCage (1 * secondsPerDay) (4 * secondsPerDay) 100 =
      (Except.ok exDBBooked, exDBBooked) ∧
    book_cage exDBBooked exOwner2 exSnake2 exCageBooked
        (1 * secondsPerDay) (4 * secondsPerDay) 200 =
      (Except.error BookFailure.attributeErrorNone, exDBBooked) ∧
    BookFailure.attributeErrorNone ≠ BookFailure.noMatchingAvailability :=
  ⟨rfl, rfl, by decide⟩

/-- C3 as amended: when the booked window was the cage's **only** matching
window, a second `book_cage` call for the same range against the updated
cage fails — by the `None`-dereference crash, not by a distinct "no
availability" error — and leaves the store unchanged, so the guest fields
of the already-booked window are never overwritten (no double-booking). -/
theorem C3_second_reserve_same_range_crashes (db db2 : DB) (account snake2nd : Owner)
    (snake snake2 : Snake) (cage cage2 : Cage) (checkin checkout t1 t2 : ℤ)
    (hone : cage.bookings.countP (windowMatches checkin checkout) = 1)
    (hfirst : book_cage db account snake cage checkin checkout t1 = (Except.ok db2, db2))
    (hid : cage2.id = cage.id) (hmem : cage2 ∈ db2.cages) :
    book_cage db2 snake2nd snake2 cage2 checkin checkout t2 =
      (Except.error BookFailure.attributeErrorNone, db2) ∧
    BookFailure.attributeErrorNone ≠ BookFailure.noMatchingAvailability := by
  cases hbw : bookWindows account.id snake.id checkin checkout t1 cage.bookings with
  | none => simp [book_cage, hbw] at hfirst
  | some bs =>
    simp only [book_cage, hbw, Prod.mk.injEq, Except.ok.injEq] at hfirst
    obtain ⟨-, hdb2⟩ := hfirst
    have hany : cage.bookings.any (windowMatches checkin checkout) = true := by
      rw [List.any_eq_true]
      have : 0 < cage.bookings.countP (windowMatches checkin checkout) := by omega
      simpa using List.countP_pos_iff.mp this
    obtain ⟨l1, b, l2, hl, hall, hm, hbw2⟩ :=
      @bookWindows_eq_some account.id snake.id checkin checkout t1 cage.bookings hany
    rw [hbw] at hbw2
    have hbs : bs = l1 ++ bookedWindow account.id snake.id checkin checkout t1 b :: l2 :=
      Option.some.injEq .. ▸ hbw2 ▸ rfl
    have hcage2 : cage2 = { cage with bookings := bs } := by
      rw [← hdb2] at hmem
      obtain ⟨c, hc, hceq⟩ := List.mem_map.mp hmem
      by_cases hcid : c.id = cage.id
      · rw [if_pos] at hceq
        · exact hceq.symm
        · exact hcid
      · rw [if_neg hcid] at hceq
        rw [← hceq] at hid
        exact absurd hid hcid
    have hl1 : l1.countP (windowMatches checkin checkout) = 0 :=
      List.countP_eq_zero.mpr (fun x hx => by simp [hall x hx])
    have hl2 : l2.countP (windowMatches checkin checkout) = 0 := by
      rw [hl, List.countP_append, List.countP_cons_of_pos _ _ hm] at hone
      omega
    have hbsz : bs.countP (windowMatches checkin checkout) = 0 := by
      rw [hbs, List.countP_append, List.countP_cons_of_neg, hl1, hl2]
      simp [windowMatches_bookedWindow]
    have hnone2 : bookWindows snake2nd.id snake2.id checkin checkout t2 cage2.bookings
        = none := by
      rw [hcage2]
      exact bookWindows_eq_none.mpr
        (List.any_eq_false.mpr (fun x hx => by
          have := List.countP_eq_zero.mp hbsz x hx
          simpa using this))
    exact ⟨by simp [book_cage, hnone2, hdb2], by decide⟩

/-- Witness for the amended C3 on the concrete single-window scenario. -/
theorem C3_witness :
    (exCage.bookings.countP (windowMatches (1 * secondsPerDay) (4 * secondsPerDay)) = 1 ∧
      exCageBooked.id = exCage.id ∧ exCageBooked ∈ exDBBooked.cages) ∧
    book_cage exDBBooked exOwner2 exSnake2 exCageBooked
        (1 * secondsPerDay) (4 * secondsPerDay) 200 =
      (Except.error BookFailure.attributeErrorNone, exDBBooked) ∧
    BookFailure.attributeErrorNone ≠ BookFailure.noMatchingAvailability :=
  ⟨⟨by decide, rfl, by decide⟩,
    C3_second_reserve_same_range_crashes exDB exDBBooked exOwner exOwner2 exSnake exSnake2
      exCage exCageBooked (1 * secondsPerDay) (4 * secondsPerDay) 100 200
      (by decide) rfl rfl (by decide)⟩

/-- C6: `add_available_date` appends exactly one new open window
`[start_date, start_date + days days]` to the refetched cage's window
list, with no overlap or validity check (it succeeds for every `days`);
with `days = 0` the created window is accepted but zero-length, and can
never match a query with `checkin < checkout`. -/
theorem C6_add_available_date_appends_unchecked (db : DB) (cage c : Cage)
    (start_date : ℤ) (days : ℤ)
    (hfind : db.cages.find? (fun x => x.id == cage.id) = some c) :
    add_available_date db cage start_date days =
      some (saveCage db (withBookings c (c.bookings ++ [newWindow start_date days])),
        withBookings c (c.bookings ++ [newWindow start_date days])) ∧
    (newWindow start_date days).check_in_date = start_date ∧
    (newWindow start_date days).check_out_date = start_date + days * secondsPerDay ∧
    (newWindow start_date days).guest_owner_id = none ∧
    (newWindow start_date days).guest_snake_id = none ∧
    (days = 0 →
      (newWindow start_date days).check_in_date = (newWindow start_date days).check_out_date ∧
      ∀ ci co : ℤ, ci < co → windowMatches ci co (newWindow start_date days) = false) := by
  refine ⟨by simp [add_available_date, hfind, withBookings], rfl, rfl, rfl, rfl, ?_⟩
  rintro rfl
  refine ⟨by simp [newWindow, timedeltaOfDays], ?_⟩
  intro ci co hlt
  rw [Bool.eq_false_iff]
  intro hw
  obtain ⟨h1, h2, -⟩ := windowMatches_iff.mp hw
  simp [newWindow, timedeltaOfDays, secondsPerDay] at h1 h2
  exact absurd hlt (not_lt.mpr (h2.trans h1))

/-- Witness for C6: appending a zero-length window at day 100. -/
theorem C6_witness :
    exDB.cages.find? (fun x => x.id == exCage.id) = some exCage ∧
    add_available_date exDB exCage (100 * secondsPerDay) 0 =
      some (saveCage exDB
          (withBookings exCage (exCage.bookings ++ [newWindow (100 * secondsPerDay) 0])),
        withBookings exCage (exCage.bookings ++ [newWindow (100 * secondsPerDay) 0])) ∧
    (newWindow (100 * secondsPerDay) 0).check_in_date
      = (newWindow (100 * secondsPerDay) 0).check_out_date :=
  ⟨rfl,
    (C6_add_available_date_appends_unchecked exDB exCage exCage
      (100 * secondsPerDay) 0 rfl).1,
    ((C6_add_available_date_appends_unchecked exDB exCage exCage
      (100 * secondsPerDay) 0 rfl).2.2.2.2.2 rfl).1⟩

/-- C10: `duration_in_days` is the floor of
`(check_out_date - check_in_date) / one day` (partial days truncate
toward the floor), and is negative whenever check-out precedes check-in
by a day or more — nothing clamps it to be non-negative. -/
theorem C10_duration_in_days_floor (b : Booking) :
    (b.duration_in_days * secondsPerDay ≤ b.check_out_date - b.check_in_date ∧
      b.check_out_date - b.check_in_date < (b.duration_in_days + 1) * secondsPerDay) ∧
    (b.check_out_date + secondsPerDay ≤ b.check_in_date → b.duration_in_days < 0) := by
  have hdur : b.duration_in_days
      = (b.check_out_date - b.check_in_date) / secondsPerDay :=
    Int.fdiv_eq_ediv _ (by norm_num [secondsPerDay])
  rw [hdur]
  simp only [secondsPerDay]
  refine ⟨⟨?_, ?_⟩, fun hpre => ?_⟩ <;> omega

/-- Witness for C10: a stay whose check-out is two days before check-in
has a negative duration. -/
theorem C10_witness :
    ((0 : ℤ) + secondsPerDay ≤ 2 * secondsPerDay) ∧
    Booking.duration_in_days { check_in_date := 2 * secondsPerDay, check_out_date := 0 } < 0 :=
  ⟨by decide,
    (C10_duration_in_days_floor
      { check_in_date := 2 * secondsPerDay, check_out_date := 0 }).2 (by decide)⟩

/-- C8: `get_available_cages` performs no `.save()`: every stored owner,
snake, cage and embedded booking is the same after the call as before it,
and the returned cages are the stored documents themselves. -/
theorem C8_get_available_cages_read_only (db : DB) (checkin checkout : ℤ)
    (snake : Snake) :
    (get_available_cages_call db checkin checkout snake).2 = db ∧
    (get_available_cages_call db checkin checkout snake).2.owners = db.owners ∧
    (get_available_cages_call db checkin checkout snake).2.snakes = db.snakes ∧
    (get_available_cages_call db checkin checkout snake).2.cages = db.cages ∧
    ∀ c ∈ (get_available_cages_call db checkin checkout snake).1, c ∈ db.cages :=
  ⟨rfl, rfl, rfl, rfl, fun _ hc => (mem_get_available_cages.mp hc).1⟩

/-- Witness for C8 at a concrete store and query. -/
theorem C8_witness :
    (get_available_cages_call exDB (1 * secondsPerDay) (4 * secondsPerDay) exSnake).2 = exDB ∧
    exCage ∈ exDB.cages :=
  ⟨(C8_get_available_cages_read_only exDB (1 * secondsPerDay) (4 * secondsPerDay) exSnake).1,
    (C8_get_available_cages_read_only exDB (1 * secondsPerDay)
        (4 * secondsPerDay) exSnake).2.2.2.2
      exCage (mem_get_available_cages.mpr
        ⟨by decide, by norm_num [exSnake, exCage], by decide, by decide⟩)⟩

/-- C7: a stored cage with two or more qualifying windows is returned
exactly once by `get_available_cages`. -/
theorem C7_multiwindow_cage_returned_once (db : DB) (checkin checkout : ℤ)
    (snake : Snake) (c : Cage)
    (hc : db.cages.count c = 1)
    (hsize : snake.length / 4 ≤ c.square_meters)
    (hvenom : snake.is_venomous = true → c.allow_dangerous_snakes = true)
    (hwins : 2 ≤ c.bookings.countP (windowMatches checkin checkout)) :
    (get_available_cages db checkin checkout snake).count c = 1 := by
  have hanyc : c.bookings.any (windowMatches checkin checkout) = true := by
    rw [List.any_eq_true]
    have hpos : 0 < c.bookings.countP (windowMatches checkin checkout) := by omega
    simpa using List.countP_pos_iff.mp hpos
  obtain ⟨b, hb, hw⟩ := List.any_eq_true.mp hanyc
  obtain ⟨h1, h2, -⟩ := windowMatches_iff.mp hw
  have hf : (decide (snake.length / 4 ≤ c.square_meters)
      && c.bookings.any (fun x => decide (x.check_in_date ≤ checkin))
      && c.bookings.any (fun x => decide (checkout ≤ x.check_out_date))) = true := by
    simp only [Bool.and_eq_true, decide_eq_true_eq, List.any_eq_true]
    exact ⟨⟨hsize, b, hb, h1⟩, b, hb, h2⟩
  cases hv : snake.is_venomous with
  | false =>
    simp only [get_available_cages, hv, Bool.false_eq_true, if_false]
    rw [List.count_filter
        (p := fun x => x.bookings.any (windowMatches checkin checkout)) (a := c) hanyc,
      (List.mergeSort_perm _ cageLE).count_eq,
      List.count_filter (a := c) hf]
    exact hc
  | true =>
    simp only [get_available_cages, hv, if_true]
    rw [List.count_filter
        (p := fun x => x.bookings.any (windowMatches checkin checkout)) (a := c) hanyc,
      (List.mergeSort_perm _ cageLE).count_eq,
      List.count_filter (p := fun x => x.allow_dangerous_snakes) (a := c) (hvenom hv),
      List.count_filter (a := c) hf]
    exact hc

def exWindow2 : Booking := { check_in_date := 0, check_out_date := 10 * secondsPerDay }

def exTwoWinCage : Cage :=
  { id := 31, name := "twowin", price := 3, square_meters := 5,
    bookings := [exWindow, exWindow2] }

def exTwoWinDB : DB := { cages := [exTwoWinCage] }

/-- Witness for C7: a cage with two open covering windows appears once. -/
theorem C7_witness :
    (exTwoWinDB.cages.count exTwoWinCage = 1 ∧
      exSnake.length / 4 ≤ exTwoWinCage.square_meters ∧
      (exSnake.is_venomous = true → exTwoWinCage.allow_dangerous_snakes = true) ∧
      2 ≤ exTwoWinCage.bookings.countP
        (windowMatches (1 * secondsPerDay) (4 * secondsPerDay))) ∧
    (get_available_cages exTwoWinDB (1 * secondsPerDay) (4 * secondsPerDay)
      exSnake).count exTwoWinCage = 1 :=
  ⟨⟨by decide, by norm_num [exSnake, exTwoWinCage], by decide, by decide⟩,
    C7_multiwindow_cage_returned_once exTwoWinDB (1 * secondsPerDay) (4 * secondsPerDay)
      exSnake exTwoWinCage (by decide) (by norm_num [exSnake, exTwoWinCage])
      (by decide) (by decide)⟩

theorem cageLE_eq_true_iff {a b : Cage} :
    cageLE a b = true ↔
      a.price < b.price ∨ (a.price = b.price ∧ b.square_meters ≤ a.square_meters) := by
  simp [cageLE]

theorem cageLE_trans (a b c : Cage) : cageLE a b → cageLE b c → cageLE a c := by
  simp only [cageLE_eq_true_iff]
  rintro (h1 | ⟨h1, h1s⟩) (h2 | ⟨h2, h2s⟩)
  · exact Or.inl (h1.trans h2)
  · exact Or.inl (h2 ▸ h1)
  · exact Or.inl (lt_of_le_of_lt h1.le h2)
  · exact Or.inr ⟨h1.trans h2, h2s.trans h1s⟩

theorem cageLE_total (a b : Cage) : cageLE a b || cageLE b a := by
  simp only [Bool.or_eq_true, cageLE_eq_true_iff]
  rcases lt_trichotomy a.price b.price with h | h | h
  · exact Or.inl (Or.inl h)
  · rcases le_total b.square_meters a.square_meters with hs | hs
    · exact Or.inl (Or.inr ⟨h, hs⟩)
    · exact Or.inr (Or.inr ⟨h.symm, hs⟩)
  · exact Or.inr (Or.inl h)

def exTwinA : Cage :=
  { id := 21, name := "twina", price := 10, square_meters := 4, bookings := [exWindow] }

def exTwinB : Cage :=
  { id := 22, name := "twinb", price := 10, square_meters := 4, bookings := [exWindow] }

def exTwinDB : DB := { cages := [exTwinA, exTwinB] }

/-- The executable evaluation of the pipeline is one admissible reply of
the relationally-modelled store. -/
theorem get_available_cages_admissible (db : DB) (checkin checkout : ℤ) (snake : Snake) :
    admissibleResult db checkin checkout snake
      (get_available_cages db checkin checkout snake) :=
  ⟨(cageQuery db checkin checkout snake).mergeSort cageLE,
    List.mergeSort_perm _ _,
    List.sorted_mergeSort cageLE_trans cageLE_total _,
    rfl⟩

/-- Counterexample to C5 as stated: the store's `order_by` contract does
not fix the order of cages equal on both sort keys, so an admissible
reply may return two equal-key stored cages in the reverse of their
stored order — the sort is not guaranteed stable. -/
theorem C5_counterexample :
    admissibleResult exTwinDB (1 * secondsPerDay) (4 * secondsPerDay) exSnake
      [exTwinB, exTwinA] ∧
    [exTwinA, exTwinB].Sublist exTwinDB.cages ∧
    exTwinA.price = exTwinB.price ∧
    exTwinA.square_meters = exTwinB.square_meters ∧
    ¬ [exTwinA, exTwinB].Sublist [exTwinB, exTwinA] := by
  refine ⟨⟨[exTwinB, exTwinA], ?_, ?_, ?_⟩, ?_, rfl, rfl, ?_⟩
  · have hq : cageQuery exTwinDB (1 * secondsPerDay) (4 * secondsPerDay) exSnake
        = [exTwinA, exTwinB] := by
      norm_num [cageQuery, exTwinDB, exTwinA, exTwinB, exWindow, exSnake,
        secondsPerDay, List.filter]
    rw [hq]
    exact List.Perm.swap exTwinA exTwinB []
  · decide
  · decide
  · exact List.Sublist.refl _
  · decide

/-- C5 as amended: under the store's `order_by` contract — some ordering
of the query results consistent with (price ascending, square_meters
descending), unspecified on ties — every admissible reply of
find-available-cages is sorted by price ascending with ties broken by
square_meters descending, and the evaluation `get_available_cages`
itself is one admissible reply.  Stability for cages equal on both keys
is not part of the contract (see the counterexample). -/
theorem C5_every_admissible_result_sorted (db : DB) (checkin checkout : ℤ)
    (snake : Snake) :
    admissibleResult db checkin checkout snake
      (get_available_cages db checkin checkout snake) ∧
    ∀ r, admissibleResult db checkin checkout snake r →
      r.Pairwise (fun a b => a.price < b.price ∨
        (a.price = b.price ∧ b.square_meters ≤ a.square_meters)) := by
  refine ⟨get_available_cages_admissible db checkin checkout snake, ?_⟩
  rintro r ⟨sc, -, hpair, rfl⟩
  exact (hpair.filter _).imp (fun h => cageLE_eq_true_iff.mp h)

/-- Witness for the amended C5: a concrete admissible reply is sorted by
the keys. -/
theorem C5_witness :
    admissibleResult exTwinDB (1 * secondsPerDay) (4 * secondsPerDay) exSnake
      [exTwinA, exTwinB] ∧
    [exTwinA, exTwinB].Pairwise (fun a b => a.price < b.price ∨
      (a.price = b.price ∧ b.square_meters ≤ a.square_meters)) := by
  have hadm : admissibleResult exTwinDB (1 * secondsPerDay) (4 * secondsPerDay)
      exSnake [exTwinA, exTwinB] := by
    refine ⟨[exTwinA, exTwinB], ?_, ?_, ?_⟩
    · have hq : cageQuery exTwinDB (1 * secondsPerDay) (4 * secondsPerDay) exSnake
          = [exTwinA, exTwinB] := by
        norm_num [cageQuery, exTwinDB, exTwinA, exTwinB, exWindow, exSnake,
          secondsPerDay, List.filter]
      rw [hq]
    · decide
    · decide
  exact ⟨hadm,
    (C5_every_admissible_result_sorted exTwinDB (1 * secondsPerDay)
      (4 * secondsPerDay) exSnake).2 [exTwinA, exTwinB] hadm⟩

end SnakeBnb
